import Mathlib

/-!
Verification of the jan-contract document-demystifier core.

Text is modelled as `List Char` (named `Str` below) so that every string
operation is a structural recursion that the kernel can evaluate.  The
operations mirror the Python string methods used by the source
(`str.split`, `str.strip`, `in`, slicing, `join`).

External capabilities (the Groq LLM, the Tavily search tool, the Google
embedding model, the PyMuPDF loader, uuid/clock) are modelled as oracle
functions supplied in an environment record; an `Except Unit` result
models a raised exception (`.error`) versus a returned value (`.ok`),
with the empty string standing for a Python-falsy response/content.
-/

namespace JanContract

abbrev Str := List Char

/-- Whitespace test matching the characters Python `str.strip` removes. -/
def isSpaceChar (c : Char) : Bool :=
  c = ' ' || c = '\t' || c = '\n' || c = '\x0d' || c = '\x0b' || c = '\x0c'

/-- Model of Python `str.strip()`: drop whitespace from both ends. -/
def trimC (l : Str) : Str :=
  ((l.dropWhile isSpaceChar).reverse.dropWhile isSpaceChar).reverse

/-- Model of Python `needle in hay` (substring containment). -/
def containsSub (hay needle : Str) : Bool :=
  match hay with
  | [] => needle.isEmpty
  | _ :: rest => needle.isPrefixOf hay || containsSub rest needle

/-- Fuel-driven worker for `splitOnC`; the fuel is the length of the input,
so the fuel-exhausted row is unreachable for a non-empty separator. -/
def splitOnFuel (sep : Str) : Nat → Str → Str → List Str
  | 0, l, acc => [acc.reverse ++ l]
  | _ + 1, [], acc => [acc.reverse]
  | fuel + 1, c :: rest, acc =>
    if sep.isPrefixOf (c :: rest) then
      acc.reverse :: splitOnFuel sep fuel (List.drop sep.length (c :: rest)) []
    else
      splitOnFuel sep fuel rest (c :: acc)

/-- Model of Python `s.split(sep)` for a non-empty separator. -/
def splitOnC (l sep : Str) : List Str :=
  splitOnFuel sep l.length l []

/-- Python `parts[i]` on the result of a split; the call sites only use it
where the index is in range, so the default is irrelevant there. -/
def partAt (parts : List Str) (i : Nat) : Str :=
  parts.getD i []

/-- Python `parts[-1]` on the result of a split. -/
def lastPart (parts : List Str) : Str :=
  parts.getLast?.getD []

/-- Result of invoking an external capability: `.error` models a raised
exception, `.ok` a returned string (empty = Python-falsy content). -/
abbrev LLMResult := Except Unit Str

def nl2 : Str := "\n\n".toList

def commaSep : Str := ",".toList

def explanationMarker : Str := "Explanation:".toList

def urlMarker : Str := "URL:".toList

/-- Default resource link used by every fallback branch of the enrichment
stage (demystifier_agent.py lines 128/131/134/138). -/
def defaultResourceLink : Str := "https://kanoon.nearlaw.com/".toList

/-- Fixed disclaimer stored in `overall_advice` (demystifier_agent.py line 150). -/
def demystifyDisclaimer : Str :=
  "This AI analysis is for informational purposes only. Consult a lawyer for binding advice.".toList

structure ExplainedTerm where
  term : Str
  explanation : Str
  resource_link : Str
deriving DecidableEq

structure DemystifyReport where
  summary : Str
  key_terms : List ExplainedTerm
  overall_advice : Str
deriving DecidableEq

/-- Summarization prompt (demystifier_agent.py line 53). -/
def summarizePrompt (context : Str) : Str :=
  "You are a paralegal expert for the Indian legal system. Summarize the following document clearly for a layman:\n\n".toList
    ++ context

/-- Term-identification prompt (demystifier_agent.py line 72). -/
def identifyTermsPrompt (context : Str) : Str :=
  "Identify the 3-5 most critical complex legal terms in the following document that a layman would not understand. Return only the terms separated by commas.\n\n".toList
    ++ context

/-- Query string passed to the legal search tool (demystifier_agent.py line 103). -/
def legalSearchQuery (term : Str) : Str :=
  "simple explanation of legal term \x27".toList ++ term ++ "\x27 in Indian law".toList

/-- Per-term enrichment prompt (demystifier_agent.py lines 108-117); the
document context is capped at its first 2000 characters. -/
def enrichmentPrompt (term document_context search_results : Str) : Str :=
  "\n        A user is reading a legal document containing the term \"".toList
    ++ term
    ++ "\".\n        Context: ".toList
    ++ document_context.take 2000
    ++ "...\n        Search Results: ".toList
    ++ search_results
    ++ "\n        \n        Provide a simple one-sentence explanation and a valid URL if found.\n        Format:\n        Explanation: [Explanation]\n        URL: [URL]\n        ".toList

/-- summarize_node (demystifier_agent.py lines 45-61). -/
def summarize_node (llm : Str → LLMResult) (document_chunks : List Str) : Str :=
  if document_chunks.isEmpty then
    "No content to summarize.".toList
  else
    match llm (summarizePrompt (List.intercalate nl2 document_chunks)) with
    | .error _ => "Summary generation failed due to an error.".toList
    | .ok content =>
      if content.isEmpty then "Summary generation failed.".toList else content

/-- Comma-splitting of the model response in identify_terms_node
(demystifier_agent.py line 80): keep the stripped form of each piece whose
stripped form is non-empty. -/
def parseTermList (content : Str) : List Str :=
  (splitOnC content commaSep).filterMap
    (fun t => if (trimC t).isEmpty then none else some (trimC t))

/-- identify_terms_node (demystifier_agent.py lines 63-84).  The Python
guard `if not context` fires exactly when the joined chunk string is
empty; an exception from the LLM and an empty/absent response each
degrade to the empty term list. -/
def identify_terms_node (llm : Str → LLMResult) (document_chunks : List Str) : List Str :=
  let context := List.intercalate nl2 document_chunks
  if context.isEmpty then
    []
  else
    match llm (identifyTermsPrompt context) with
    | .error _ => []
    | .ok content => if content.isEmpty then [] else parseTermList content

/-- The search step of the enrichment loop (demystifier_agent.py lines
102-106): an exception from the tool degrades to a placeholder string. -/
def searchResultText (search : Str → LLMResult) (term : Str) : Str :=
  match search (legalSearchQuery term) with
  | .error _ => "Search unavailable.".toList
  | .ok s => s

/-- Marker parsing of the enrichment response (demystifier_agent.py lines
122-131).  When both markers occur, the explanation is the stripped text
between the first `Explanation:` and the following `URL:`, and the link is
the stripped text after the last `URL:`; otherwise the whole stripped
content becomes the explanation and the link falls back to the default.
The inner Python except-branch cannot fire (split/strip never raise), so
it has no counterpart here. -/
def parseEnrichment (content : Str) : Str × Str :=
  if containsSub content explanationMarker && containsSub content urlMarker then
    (trimC (partAt (splitOnC (partAt (splitOnC content explanationMarker) 1) urlMarker) 0),
     trimC (lastPart (splitOnC content urlMarker)))
  else
    (trimC content, defaultResourceLink)

/-- One iteration of the enrichment loop in generate_report_node
(demystifier_agent.py lines 100-140). -/
def enrichTerm (llm search : Str → LLMResult) (document_context term : Str) : ExplainedTerm :=
  let search_results := searchResultText search term
  match llm (enrichmentPrompt term document_context search_results) with
  | .error _ => ⟨term, "Explanation unavailable.".toList, defaultResourceLink⟩
  | .ok content =>
    if content.isEmpty then
      ⟨term, "Explanation unavailable.".toList, defaultResourceLink⟩
    else
      ⟨term, (parseEnrichment content).1, (parseEnrichment content).2⟩

/-- generate_report_node (demystifier_agent.py lines 86-152). -/
def generate_report_node (llm search : Str → LLMResult) (document_chunks : List Str)
    (summary : Str) (identified_terms : List Str) : DemystifyReport :=
  let document_context := List.intercalate nl2 document_chunks
  ⟨summary, identified_terms.map (enrichTerm llm search document_context), demystifyDisclaimer⟩

/-- The compiled analysis graph (demystifier_agent.py lines 154-163):
summarize, then identify terms, then generate the report, each node
reading the state the previous nodes produced. -/
def run_demystifier_graph (llm search : Str → LLMResult) (document_chunks : List Str) :
    DemystifyReport :=
  let summary := summarize_node llm document_chunks
  let identified_terms := identify_terms_node llm document_chunks
  generate_report_node llm search document_chunks summary identified_terms

/-- Modelled from the spec: the text splitter is the external
RecursiveCharacterTextSplitter; spec section 3 describes its output as a
sliding-window split with bounded chunk size and fixed overlap.  The fuel
is the input length, which suffices whenever `step` is positive. -/
def chunkWindows (size step : Nat) : Nat → Str → List Str
  | _, [] => []
  | 0, l => [l]
  | fuel + 1, l =>
    if l.length ≤ size then [l]
    else l.take size :: chunkWindows size step fuel (l.drop step)

/-- Modelled from the spec: sliding-window split of one text with maximum
chunk size `chunk_size` and overlap `chunk_overlap` between neighbours. -/
def splitText (chunk_size chunk_overlap : Nat) (text : Str) : List Str :=
  chunkWindows chunk_size (chunk_size - chunk_overlap) text.length text

/-- Modelled from the spec: `splitter.split_documents` splits each loaded
page in order and concatenates the chunk lists, with the configuration
fixed at chunk_size 1000 / chunk_overlap 100 (demystifier_agent.py line 187). -/
def split_documents (pages : List Str) : List Str :=
  (pages.map (splitText 1000 100)).flatten

/-- Modelled from the spec (section 4.2): the retrieval index stores one
(chunk, embedding) pair per chunk in original order; FAISS itself is an
external capability. -/
structure RetrievalIndex (V : Type) where
  pairs : List (Str × V)
deriving DecidableEq

def buildIndex {V : Type} (embed : Str → V) (chunks : List Str) : RetrievalIndex V :=
  ⟨chunks.map (fun c => (c, embed c))⟩

structure Retriever (V : Type) where
  index : RetrievalIndex V
  k : Nat
deriving DecidableEq

/-- vectorstore.as_retriever with search_kwargs k = 3 (demystifier_agent.py
line 192): k is fixed at index-build time. -/
def as_retriever {V : Type} (idx : RetrievalIndex V) : Retriever V :=
  ⟨idx, 3⟩

/-- Modelled from the spec: each stored chunk scored by the distance of its
embedding to the query embedding, tagged with its original position. -/
def scoreChunks {V : Type} (dist : V → V → Nat) (q : V) (idx : RetrievalIndex V) :
    List (Nat × Nat × Str) :=
  idx.pairs.enum.map (fun p => (dist q p.2.2, p.1, p.2.1))

/-- Comparison used to rank scored chunks: smaller distance first, ties
broken by the original chunk position. -/
def scoreLE (a b : Nat × Nat × Str) : Prop :=
  a.1 < b.1 ∨ (a.1 = b.1 ∧ a.2.1 ≤ b.2.1)

instance : DecidableRel scoreLE := fun a b =>
  inferInstanceAs (Decidable (a.1 < b.1 ∨ (a.1 = b.1 ∧ a.2.1 ≤ b.2.1)))

instance : IsTotal (Nat × Nat × Str) scoreLE :=
  ⟨fun a b => by
    unfold scoreLE
    rcases Nat.lt_trichotomy a.1 b.1 with h | h | h
    · exact Or.inl (Or.inl h)
    · rcases Nat.le_total a.2.1 b.2.1 with h2 | h2
      · exact Or.inl (Or.inr ⟨h, h2⟩)
      · exact Or.inr (Or.inr ⟨h.symm, h2⟩)
    · exact Or.inr (Or.inl h)⟩

instance : IsTrans (Nat × Nat × Str) scoreLE :=
  ⟨fun a b c hab hbc => by
    unfold scoreLE at *
    rcases hab with h | ⟨h, h2⟩ <;> rcases hbc with g | ⟨g, g2⟩
    · exact Or.inl (Nat.lt_trans h g)
    · exact Or.inl (g ▸ h)
    · exact Or.inl (h ▸ g)
    · exact Or.inr ⟨h.trans g, Nat.le_trans h2 g2⟩⟩

/-- Modelled from the spec: a retrieval query embeds the question and
returns the k stored chunks of smallest distance, ties broken by original
chunk order, with k the value fixed in the retriever. -/
def queryRetriever {V : Type} (dist : V → V → Nat) (embed : Str → V)
    (r : Retriever V) (question : Str) : List Str :=
  let q := embed question
  let sorted := (scoreChunks dist q r.index).insertionSort scoreLE
  (sorted.take r.k).map (fun x => x.2.2)

/-- An uploaded file as the FastAPI endpoint sees it; `body` is an opaque
content identifier that the loader oracle reads. -/
structure UploadFile where
  filename : Str
  content_type : Str
  size : Nat
  body : Nat
deriving DecidableEq

/-- The external capabilities consumed by the pipeline: the PyMuPDF page
loader, the Groq LLM, the Tavily search tool, the embedding model, and
the uuid / clock sources used by the endpoint, each indexed by call site. -/
structure Env (V : Type) where
  loader : UploadFile → List Str
  llm : Str → LLMResult
  search : Str → LLMResult
  embed : Str → V
  uuid : Nat → Str
  now : Nat → Str

structure DemystifyResult (V : Type) where
  report : DemystifyReport
  rag_chain : Retriever V
deriving DecidableEq

/-- process_document_for_demystification (demystifier_agent.py lines
177-203): raise when the loader finds no documents; otherwise split, build
the FAISS store over all chunks with k = 3, and run the analysis graph on
the first 10 chunk contents only. -/
def process_document_for_demystification {V : Type} (env : Env V) (file : UploadFile) :
    Except Str (DemystifyResult V) :=
  let documents := env.loader file
  if documents.isEmpty then
    .error "No content found in PDF.".toList
  else
    let chunks := split_documents documents
    let retriever := as_retriever (buildIndex env.embed chunks)
    let chunk_contents := chunks
    let report := run_demystifier_graph env.llm env.search (chunk_contents.take 10)
    .ok ⟨report, retriever⟩

structure HTTPError where
  status_code : Nat
  detail : Str
deriving DecidableEq

/-- One entry of SESSION_CACHE (main.py lines 433-438). -/
structure SessionRecord (V : Type) where
  rag_chain : Retriever V
  file_path : Str
  upload_time : Str
  filename : Str
deriving DecidableEq

abbrev SessionCache (V : Type) := List (Str × SessionRecord V)

/-- The server file system, modelled as the set of existing paths. -/
abbrev FileSystem := List Str

def lookupSession {V : Type} : SessionCache V → Str → Option (SessionRecord V)
  | [], _ => none
  | (k, r) :: rest, session_id =>
    if k = session_id then some r else lookupSession rest session_id

/-- get_session_data (main.py lines 158-163); a stored record is a
non-empty dict, hence never Python-falsy. -/
def get_session_data {V : Type} (cache : SessionCache V) (session_id : Str) :
    Except HTTPError (SessionRecord V) :=
  match lookupSession cache session_id with
  | none => .error ⟨404, "Session not found. Please upload the document again.".toList⟩
  | some r => .ok r

structure UploadData (V : Type) where
  session_id : Str
  report : DemystifyReport
  filename : Str
  upload_time : Str
deriving DecidableEq

/-- demystify_upload (main.py lines 391-452): validate the upload, write
the file, process it, and only on success register a fresh session; any
exception from processing becomes a 500 response and leaves the cache
untouched (the saved file is not cleaned up). -/
def demystify_upload {V : Type} (env : Env V) (cache : SessionCache V) (fs : FileSystem)
    (file : UploadFile) :
    SessionCache V × FileSystem × Except HTTPError (UploadData V) :=
  if ¬ file.content_type = "application/pdf".toList then
    (cache, fs, .error ⟨400, "Invalid file type. Please upload a PDF.".toList⟩)
  else if 50 * 1024 * 1024 < file.size then
    (cache, fs, .error ⟨400, "File too large. Maximum size is 50MB.".toList⟩)
  else
    let file_path := "pdfs_demystify/".toList ++ env.uuid 0 ++ "_".toList ++ file.filename
    let fs1 := file_path :: fs
    match process_document_for_demystification env file with
    | .error e =>
      (cache, fs1, .error ⟨500, "Document processing failed: ".toList ++ e⟩)
    | .ok result =>
      let session_id := env.uuid 1
      ((session_id, ⟨result.rag_chain, file_path, env.now 0, file.filename⟩) :: cache,
       fs1,
       .ok ⟨session_id, result.report, file.filename, env.now 1⟩)

/-- Model of `del SESSION_CACHE[session_id]`: drop every entry stored
under the identifier. -/
def eraseSession {V : Type} : SessionCache V → Str → SessionCache V
  | [], _ => []
  | (k, r) :: rest, session_id =>
    if k = session_id then eraseSession rest session_id
    else (k, r) :: eraseSession rest session_id

/-- Model of `os.remove(file_path)` on the path-set file system. -/
def removePath : FileSystem → Str → FileSystem
  | [], _ => []
  | q :: rest, path =>
    if q = path then removePath rest path else q :: removePath rest path

/-- delete_demystify_session (main.py lines 507-523): 404 when the session
is absent; otherwise drop the cache entry and remove the associated file
when the stored path is non-empty (Python truthiness) and exists. -/
def delete_demystify_session {V : Type} (cache : SessionCache V) (fs : FileSystem)
    (session_id : Str) :
    SessionCache V × FileSystem × Except HTTPError Str :=
  match get_session_data cache session_id with
  | .error e => (cache, fs, .error e)
  | .ok r =>
    let cache1 := eraseSession cache session_id
    let fs1 :=
      if ¬ r.file_path = [] ∧ r.file_path ∈ fs then removePath fs r.file_path
      else fs
    (cache1, fs1, .ok "Session and associated files deleted successfully".toList)

/-- The general-assistant Gemini client (general_assistant_agent.py lines
8-14): configured flag plus the generate_content capability, whose outcome
may differ per attempt; `.error` carries the exception text. -/
structure GeminiClient where
  configured : Bool
  generate_content : Str → Nat → Except Str Str
deriving Inhabited

def max_retries : Nat := 5

/-- base_delay = 2 seconds (general_assistant_agent.py line 25). -/
def base_delay : Nat := 2

def rate_limit_message : Str :=
  "Error: Rate limit exceeded after 5 attempts. Please try again later.".toList

def generic_failure_message : Str :=
  "Error: Failed to get response from Gemini API.".toList

/-- The 429 / RESOURCE_EXHAUSTED test (general_assistant_agent.py line 36). -/
def isRateLimitText (e : Str) : Bool :=
  containsSub e "429".toList || containsSub e "RESOURCE_EXHAUSTED".toList

/-- Outcome of ask_gemini: the returned text, the number of attempts made,
and the backoff delays slept between attempts (in seconds, without the
random jitter in [0,1) that the source adds to each). -/
structure GeminiCall where
  result : Str
  attempts : Nat
  delays : List Nat
deriving DecidableEq

/-- The retry loop of ask_gemini (general_assistant_agent.py lines 27-47),
fuelled by the number of remaining iterations. -/
def ask_gemini_loop (client : GeminiClient) (prompt : Str) : Nat → Nat → GeminiCall
  | attempt, 0 => ⟨generic_failure_message, attempt, []⟩
  | attempt, fuel + 1 =>
    match client.generate_content prompt attempt with
    | .ok text => ⟨text, attempt + 1, []⟩
    | .error e =>
      if isRateLimitText e then
        if attempt = max_retries - 1 then
          ⟨rate_limit_message, attempt + 1, []⟩
        else
          let rest := ask_gemini_loop client prompt (attempt + 1) fuel
          ⟨rest.result, rest.attempts, base_delay * 2 ^ attempt :: rest.delays⟩
      else
        ⟨"An error occurred while communicating with the Gemini API: ".toList ++ e,
         attempt + 1, []⟩

/-- ask_gemini (general_assistant_agent.py lines 16-47). -/
def ask_gemini (client : GeminiClient) (prompt : Str) : GeminiCall :=
  if client.configured then
    ask_gemini_loop client prompt 0 max_retries
  else
    ⟨"Error: The Gen AI client is not configured. Please check your API key.".toList, 0, []⟩

/-! Concrete inputs used by counterexamples and witnesses. -/

def docCE : Str := "x".toList

/-- An LLM oracle that names six comma-separated terms in the
identification stage and answers every enrichment request with a response
whose two markers enclose only whitespace. -/
def llmCE : Str → LLMResult := fun p =>
  if p = identifyTermsPrompt (List.intercalate nl2 [docCE]) then
    .ok "a,b,c,d,e,f".toList
  else
    .ok "Explanation: URL:".toList

def searchCE : Str → LLMResult := fun _ => .ok "S".toList

def llmFailW : Str → LLMResult := fun _ => .error ()

def searchOkW : Str → LLMResult := fun _ => .ok []

def llmNoMarkersW : Str → LLMResult := fun _ => .ok "The term means X.".toList

def llmTermsW : Str → LLMResult := fun _ => .ok " a , b ,,".toList

def envEmptyW : Env Unit :=
  ⟨fun _ => [], fun _ => .error (), fun _ => .error (), fun _ => (), fun _ => [], fun _ => []⟩

def fileW : UploadFile :=
  ⟨"f.pdf".toList, "application/pdf".toList, 0, 0⟩

def envTenW : Env Unit :=
  ⟨fun _ => ["hi".toList], fun _ => .ok [], fun _ => .ok [], fun _ => (), fun _ => [],
   fun _ => []⟩

def fileAW : UploadFile :=
  ⟨"a.pdf".toList, "application/pdf".toList, 0, 0⟩

def fileBW : UploadFile :=
  ⟨"b.pdf".toList, "application/pdf".toList, 0, 1⟩

def retrieverW : Retriever Unit :=
  as_retriever (buildIndex (fun _ => ()) [])

def recordW : SessionRecord Unit :=
  ⟨retrieverW, "p".toList, [], []⟩

def cacheW : SessionCache Unit :=
  [("s".toList, recordW)]

def fsW : FileSystem :=
  ["p".toList]

def client429W : GeminiClient :=
  ⟨true, fun _ _ => .error "429".toList⟩

/-! Helper lemmas shared by the claim theorems. -/

theorem enrichTerm_term (llm search : Str → LLMResult) (document_context t : Str) :
    (enrichTerm llm search document_context t).term = t := by
  cases hl : llm (enrichmentPrompt t document_context (searchResultText search t)) with
  | error e => simp [enrichTerm, hl]
  | ok content =>
    by_cases hc : content.isEmpty <;> simp [enrichTerm, hl, hc]

theorem lookupSession_erase_none {V : Type} (cache : SessionCache V) (session_id : Str) :
    lookupSession (eraseSession cache session_id) session_id = none := by
  induction cache with
  | nil => rfl
  | cons hd tl ih =>
    obtain ⟨k, r⟩ := hd
    by_cases h : k = session_id <;>
      simp [eraseSession, h, lookupSession, ih]

theorem not_mem_removePath (fs : FileSystem) (path : Str) :
    path ∉ removePath fs path := by
  induction fs with
  | nil => simp [removePath]
  | cons q rest ih =>
    by_cases h : q = path
    · simpa [removePath, h] using ih
    · simp only [removePath, if_neg h, List.mem_cons]
      rintro (hq | hq)
      · exact h hq.symm
      · exact ih hq

theorem ask_gemini_loop_attempts_le (client : GeminiClient) (prompt : Str) :
    ∀ fuel attempt, (ask_gemini_loop client prompt attempt fuel).attempts ≤ attempt + fuel := by
  intro fuel
  induction fuel with
  | zero =>
    intro attempt
    simp [ask_gemini_loop]
  | succ n ih =>
    intro attempt
    have hrec := ih (attempt + 1)
    unfold ask_gemini_loop
    cases client.generate_content prompt attempt with
    | ok t =>
      simp only []
      omega
    | error e =>
      by_cases hrl : isRateLimitText e
      · by_cases hl : attempt = max_retries - 1
        · simp only [hrl, if_true, hl, if_pos rfl]
          omega
        · simp only [hrl, if_true, if_neg hl]
          omega
      · simp only [Bool.not_eq_true] at hrl
        simp only [hrl, Bool.false_eq_true, if_false]
        omega

/-- Claim C9: for every list of identified terms, generate_report_node
produces exactly one key_terms entry per identified term, in the same
order, and sets overall_advice to the fixed disclaimer string, regardless
of the other inputs. -/
theorem generate_report_structure (llm search : Str → LLMResult) (document_chunks : List Str)
    (summary : Str) (identified_terms : List Str) :
    (generate_report_node llm search document_chunks summary identified_terms).key_terms.map
        ExplainedTerm.term = identified_terms ∧
    (generate_report_node llm search document_chunks summary identified_terms).key_terms.length
        = identified_terms.length ∧
    (generate_report_node llm search document_chunks summary identified_terms).overall_advice
        = demystifyDisclaimer ∧
    (generate_report_node llm search document_chunks summary identified_terms).summary
        = summary := by
  have hmap : ∀ l : List Str,
      l.map (fun t => (enrichTerm llm search (List.intercalate nl2 document_chunks) t).term)
        = l := by
    intro l
    induction l with
    | nil => rfl
    | cons t ts ih => simp [enrichTerm_term, ih]
  refine ⟨?_, ?_, rfl, rfl⟩
  · simpa [generate_report_node, List.map_map, Function.comp_def] using hmap identified_terms
  · simp [generate_report_node]

set_option maxRecDepth 1000000 in
/-- Claim C1 counterexample: with an LLM response naming six terms and
enrichment responses whose markers enclose only whitespace, the pipeline
returns six key terms whose explanation and resource link are empty, so
the claimed bound of 5 and the claimed non-emptiness both fail. -/
theorem key_terms_cap_counterexample :
    ¬ ((run_demystifier_graph llmCE searchCE [docCE]).key_terms.length ≤ 5 ∧
       ∀ e ∈ (run_demystifier_graph llmCE searchCE [docCE]).key_terms,
         ¬ e.explanation = [] ∧ ¬ e.resource_link = []) := by
  decide

/-- Claim C1 (amended): the report has exactly one key_terms entry per
identified term (the length equals the number of identified terms and is
not capped at 5), and any entry whose enrichment call raised or returned
empty content carries the non-empty fallback explanation and the
non-empty default resource link; entries parsed out of a marker-bearing
response may be empty. -/
theorem report_entries_per_term (llm search : Str → LLMResult) (document_chunks : List Str) :
    (run_demystifier_graph llm search document_chunks).key_terms
      = (identify_terms_node llm document_chunks).map
          (enrichTerm llm search (List.intercalate nl2 document_chunks)) ∧
    (run_demystifier_graph llm search document_chunks).key_terms.length
      = (identify_terms_node llm document_chunks).length ∧
    ∀ t : Str,
      (llm (enrichmentPrompt t (List.intercalate nl2 document_chunks)
            (searchResultText search t)) = .error () ∨
       llm (enrichmentPrompt t (List.intercalate nl2 document_chunks)
            (searchResultText search t)) = .ok []) →
      enrichTerm llm search (List.intercalate nl2 document_chunks) t
          = ⟨t, "Explanation unavailable.".toList, defaultResourceLink⟩ ∧
      ¬ "Explanation unavailable.".toList = ([] : Str) ∧
      ¬ defaultResourceLink = ([] : Str) := by
  refine ⟨rfl, ?_, ?_⟩
  · simp [run_demystifier_graph, generate_report_node]
  · intro t h
    refine ⟨?_, by decide, by decide⟩
    rcases h with h | h <;> simp [enrichTerm, h]

/-- Claim C1 witness: instantiation of the amended theorem at a concrete
failing enrichment oracle. -/
theorem report_entries_per_term_witness :
    enrichTerm llmFailW searchOkW (List.intercalate nl2 ["doc".toList]) "term".toList
        = ⟨"term".toList, "Explanation unavailable.".toList, defaultResourceLink⟩ ∧
    ¬ "Explanation unavailable.".toList = ([] : Str) ∧
    ¬ defaultResourceLink = ([] : Str) :=
  (report_entries_per_term llmFailW searchOkW ["doc".toList]).2.2 "term".toList (Or.inl rfl)

/-- Claim C3: when the enrichment response exists, is non-empty, and lacks
one of the two markers, the produced entry is total (no exception), its
explanation is the fallback value the code assigns (the stripped raw
response), and its resource link is the non-empty default link. -/
theorem enrich_marker_fallback (llm search : Str → LLMResult)
    (document_context term content : Str)
    (hresp : llm (enrichmentPrompt term document_context (searchResultText search term))
        = .ok content)
    (hne : ¬ content = [])
    (hmiss : ¬ (containsSub content explanationMarker = true ∧
                containsSub content urlMarker = true)) :
    enrichTerm llm search document_context term
        = ⟨term, trimC content, defaultResourceLink⟩ ∧
    ¬ defaultResourceLink = ([] : Str) := by
  have hce : content.isEmpty = false := by
    cases content with
    | nil => exact absurd rfl hne
    | cons c cs => rfl
  have hcb : (containsSub content explanationMarker && containsSub content urlMarker)
      = false := by
    cases he : containsSub content explanationMarker <;>
      cases hu : containsSub content urlMarker <;> simp_all
  refine ⟨?_, by decide⟩
  simp [enrichTerm, hresp, hce, parseEnrichment, hcb]

/-- Claim C3 witness: a concrete response with no markers yields the
stripped response text and the default link. -/
theorem enrich_marker_fallback_witness :
    enrichTerm llmNoMarkersW searchOkW "doc".toList "lien".toList
        = ⟨"lien".toList, trimC "The term means X.".toList, defaultResourceLink⟩ ∧
    ¬ defaultResourceLink = ([] : Str) :=
  enrich_marker_fallback llmNoMarkersW searchOkW "doc".toList "lien".toList
    "The term means X.".toList rfl (by decide) (by decide)

/-- Claim C4: the identification stage returns the empty term list when
the document context is empty, when the LLM raises, and when it returns
empty content; otherwise it parses the comma-separated response, and
every parsed term is non-empty and is the stripped form of one
comma-separated piece of the response. -/
theorem identify_terms_parse (llm : Str → LLMResult) (document_chunks : List Str) :
    (List.intercalate nl2 document_chunks = [] →
      identify_terms_node llm document_chunks = []) ∧
    (llm (identifyTermsPrompt (List.intercalate nl2 document_chunks)) = .error () →
      identify_terms_node llm document_chunks = []) ∧
    (llm (identifyTermsPrompt (List.intercalate nl2 document_chunks)) = .ok [] →
      identify_terms_node llm document_chunks = []) ∧
    ∀ content : Str,
      llm (identifyTermsPrompt (List.intercalate nl2 document_chunks)) = .ok content →
      ¬ List.intercalate nl2 document_chunks = [] →
      identify_terms_node llm document_chunks = parseTermList content ∧
      ∀ s ∈ parseTermList content,
        ¬ s = [] ∧ ∃ piece ∈ splitOnC content commaSep, s = trimC piece := by
  refine ⟨?_, ?_, ?_, ?_⟩
  · intro h
    simp [identify_terms_node, h]
  · intro h
    by_cases hc : (List.intercalate nl2 document_chunks).isEmpty <;>
      simp [identify_terms_node, hc, h]
  · intro h
    by_cases hc : (List.intercalate nl2 document_chunks).isEmpty <;>
      simp [identify_terms_node, hc, h, parseTermList, splitOnC, splitOnFuel]
  · intro content hresp hctx
    have hc : (List.intercalate nl2 document_chunks).isEmpty = false := by
      cases h : List.intercalate nl2 document_chunks with
      | nil => exact absurd h hctx
      | cons c cs => rfl
    constructor
    · by_cases hcc : content.isEmpty
      · have : content = [] := by
          cases content with
          | nil => rfl
          | cons c cs => exact absurd hcc (by simp)
        subst this
        simp [identify_terms_node, hc, hresp, parseTermList, splitOnC, splitOnFuel, trimC]
      · simp [identify_terms_node, hc, hresp, hcc]
    · intro s hs
      simp only [parseTermList, List.mem_filterMap] at hs
      obtain ⟨t, ht, hts⟩ := hs
      by_cases h : (trimC t).isEmpty
      · rw [if_pos h] at hts
        exact absurd hts (by simp)
      · rw [if_neg h] at hts
        have hst : trimC t = s := Option.some.inj hts
        refine ⟨?_, t, ht, hst.symm⟩
        intro hnil
        rw [hst, hnil] at h
        exact h rfl

/-- Claim C4 witness: instantiation at a concrete comma-separated response
with blank and empty pieces. -/
theorem identify_terms_parse_witness :
    identify_terms_node llmTermsW ["doc".toList] = parseTermList " a , b ,,".toList ∧
    ∀ s ∈ parseTermList " a , b ,,".toList,
      ¬ s = [] ∧ ∃ piece ∈ splitOnC " a , b ,,".toList commaSep, s = trimC piece :=
  (identify_terms_parse llmTermsW ["doc".toList]).2.2.2 " a , b ,,".toList rfl (by decide)

/-- Claim C2: when a well-formed upload yields no extractable documents,
the processing function raises the empty-document error, the endpoint
answers with the corresponding 500 response, and the session cache is
left exactly as it was. -/
theorem empty_document_upload {V : Type} (env : Env V) (cache : SessionCache V)
    (fs : FileSystem) (file : UploadFile)
    (hct : file.content_type = "application/pdf".toList)
    (hsz : file.size ≤ 50 * 1024 * 1024)
    (hempty : env.loader file = []) :
    process_document_for_demystification env file
        = .error "No content found in PDF.".toList ∧
    (demystify_upload env cache fs file).1 = cache ∧
    (demystify_upload env cache fs file).2.2
        = .error ⟨500, "Document processing failed: No content found in PDF.".toList⟩ := by
  have hproc : process_document_for_demystification env file
      = .error "No content found in PDF.".toList := by
    simp [process_document_for_demystification, hempty]
  have hsz2 : ¬ 50 * 1024 * 1024 < file.size := by omega
  have hcat : "Document processing failed: ".toList ++ "No content found in PDF.".toList
      = "Document processing failed: No content found in PDF.".toList := by decide
  refine ⟨hproc, ?_, ?_⟩ <;>
    simp [demystify_upload, hct, hsz2, hproc, hcat]

/-- Claim C2 witness: instantiation at a loader that extracts nothing. -/
theorem empty_document_upload_witness :
    process_document_for_demystification envEmptyW fileW
        = .error "No content found in PDF.".toList ∧
    (demystify_upload envEmptyW [] [] fileW).1 = [] ∧
    (demystify_upload envEmptyW [] [] fileW).2.2
        = .error ⟨500, "Document processing failed: No content found in PDF.".toList⟩ :=
  empty_document_upload envEmptyW [] [] fileW rfl (by decide) rfl

/-- Claim C5: the retriever built over an index fixes k = 3 at build time,
and a query returns exactly min(3, number of chunks) chunks, namely a
prefix of a sorting of all scored chunks: the returned chunks are sorted
by distance with ties broken by original chunk position, and each beats
every chunk that is not returned.  (The FAISS store itself is an external
capability; query semantics are modelled from spec section 4.2, while the
constant k = 3 comes from the source.) -/
theorem query_top_k {V : Type} (dist : V → V → Nat) (embed : Str → V)
    (chunks : List Str) (question : Str) :
    (as_retriever (buildIndex embed chunks)).k = 3 ∧
    (queryRetriever dist embed (as_retriever (buildIndex embed chunks)) question).length
        = min 3 chunks.length ∧
    ∃ picked rest : List (Nat × Nat × Str),
      (picked ++ rest).Perm
          (scoreChunks dist (embed question) (buildIndex embed chunks)) ∧
      queryRetriever dist embed (as_retriever (buildIndex embed chunks)) question
          = picked.map (fun x => x.2.2) ∧
      picked.length = min 3 chunks.length ∧
      List.Sorted scoreLE picked ∧
      ∀ x ∈ picked, ∀ y ∈ rest, scoreLE x y := by
  have hperm := List.perm_insertionSort scoreLE
    (scoreChunks dist (embed question) (buildIndex embed chunks))
  have hsorted : List.Sorted scoreLE
      ((scoreChunks dist (embed question) (buildIndex embed chunks)).insertionSort scoreLE) :=
    List.sorted_insertionSort scoreLE _
  have hlen : ((scoreChunks dist (embed question) (buildIndex embed chunks)).insertionSort
      scoreLE).length = chunks.length := by
    rw [hperm.length_eq]
    simp [scoreChunks, buildIndex]
  refine ⟨rfl, ?_,
    ((scoreChunks dist (embed question) (buildIndex embed chunks)).insertionSort
      scoreLE).take 3,
    ((scoreChunks dist (embed question) (buildIndex embed chunks)).insertionSort
      scoreLE).drop 3,
    ?_, rfl, ?_, ?_, ?_⟩
  · simp [queryRetriever, as_retriever, List.length_take, hlen]
  · rw [List.take_append_drop]
    exact hperm
  · simp [List.length_take, hlen]
  · exact List.Pairwise.sublist (List.take_sublist 3 _) hsorted
  · have hp := hsorted
    rw [← List.take_append_drop 3 ((scoreChunks dist (embed question)
      (buildIndex embed chunks)).insertionSort scoreLE)] at hp
    exact (List.pairwise_append.mp hp).2.2

/-- Claim C6: the general-assistant call never makes more than 5 attempts,
the rate-limit message differs from the generic failure message, and when
every attempt fails with a rate-limit error (429 / RESOURCE_EXHAUSTED) it
makes exactly 5 attempts, sleeps the exponential backoff sequence between
them, and returns the explicit rate-limit error. -/
theorem rate_limited_retries (client : GeminiClient) (prompt : Str) :
    (ask_gemini client prompt).attempts ≤ max_retries ∧
    ¬ rate_limit_message = generic_failure_message ∧
    (client.configured = true →
      (∀ i, i < max_retries →
        ∃ e, client.generate_content prompt i = .error e ∧ isRateLimitText e = true) →
      (ask_gemini client prompt).result = rate_limit_message ∧
      (ask_gemini client prompt).attempts = max_retries ∧
      (ask_gemini client prompt).delays
          = [base_delay * 2 ^ 0, base_delay * 2 ^ 1, base_delay * 2 ^ 2, base_delay * 2 ^ 3]) := by
  refine ⟨?_, by decide, ?_⟩
  · by_cases hc : client.configured
    · have := ask_gemini_loop_attempts_le client prompt max_retries 0
      simp only [ask_gemini, hc, if_true]
      omega
    · simp [ask_gemini, hc]
  · intro hc hall
    obtain ⟨e0, he0, hr0⟩ := hall 0 (by decide)
    obtain ⟨e1, he1, hr1⟩ := hall 1 (by decide)
    obtain ⟨e2, he2, hr2⟩ := hall 2 (by decide)
    obtain ⟨e3, he3, hr3⟩ := hall 3 (by decide)
    obtain ⟨e4, he4, hr4⟩ := hall 4 (by decide)
    have s4 : ask_gemini_loop client prompt 4 1 = ⟨rate_limit_message, 5, []⟩ := by
      unfold ask_gemini_loop
      rw [he4]
      simp [hr4, max_retries]
    have s3 : ask_gemini_loop client prompt 3 2
        = ⟨rate_limit_message, 5, [base_delay * 2 ^ 3]⟩ := by
      unfold ask_gemini_loop
      rw [he3]
      simp [hr3, max_retries, s4]
    have s2 : ask_gemini_loop client prompt 2 3
        = ⟨rate_limit_message, 5, [base_delay * 2 ^ 2, base_delay * 2 ^ 3]⟩ := by
      unfold ask_gemini_loop
      rw [he2]
      simp [hr2, max_retries, s3]
    have s1 : ask_gemini_loop client prompt 1 4
        = ⟨rate_limit_message, 5, [base_delay * 2 ^ 1, base_delay * 2 ^ 2,
            base_delay * 2 ^ 3]⟩ := by
      unfold ask_gemini_loop
      rw [he1]
      simp [hr1, max_retries, s2]
    have s0 : ask_gemini_loop client prompt 0 5
        = ⟨rate_limit_message, 5, [base_delay * 2 ^ 0, base_delay * 2 ^ 1,
            base_delay * 2 ^ 2, base_delay * 2 ^ 3]⟩ := by
      unfold ask_gemini_loop
      rw [he0]
      simp [hr0, max_retries, s1]
    simp [ask_gemini, hc, max_retries, s0]

/-- Claim C6 witness: a client that is rate-limited on every attempt. -/
theorem rate_limited_retries_witness :
    (ask_gemini client429W []).result = rate_limit_message ∧
    (ask_gemini client429W []).attempts = max_retries ∧
    (ask_gemini client429W []).delays
        = [base_delay * 2 ^ 0, base_delay * 2 ^ 1, base_delay * 2 ^ 2, base_delay * 2 ^ 3] :=
  (rate_limited_retries client429W []).2.2 rfl (fun i _ => ⟨"429".toList, rfl, by decide⟩)

/-- Claim C7: chunking is deterministic; splitting equal texts with the
fixed configuration (maximum size 1000, overlap 100) yields identical
chunk sequences, both for a single text and through the per-document
splitter. -/
theorem chunking_deterministic (t1 t2 : Str) (h : t1 = t2) :
    splitText 1000 100 t1 = splitText 1000 100 t2 ∧
    split_documents [t1] = split_documents [t2] := by
  subst h
  exact ⟨rfl, rfl⟩

/-- Claim C7 witness: instantiation at a concrete text. -/
theorem chunking_deterministic_witness :
    splitText 1000 100 "abc".toList = splitText 1000 100 "abc".toList ∧
    split_documents ["abc".toList] = split_documents ["abc".toList] :=
  chunking_deterministic "abc".toList "abc".toList rfl

/-- Claim C8: a lookup after delete_demystify_session fails with the 404
session-not-found condition, and when the session was present its record
is removed from the cache and its stored file path (when non-empty, as
every registered path is) is absent from the resulting file system. -/
theorem delete_then_get {V : Type} (cache : SessionCache V) (fs : FileSystem)
    (session_id : Str) :
    get_session_data (delete_demystify_session cache fs session_id).1 session_id
        = .error ⟨404, "Session not found. Please upload the document again.".toList⟩ ∧
    ∀ r : SessionRecord V, lookupSession cache session_id = some r →
      lookupSession (delete_demystify_session cache fs session_id).1 session_id = none ∧
      (¬ r.file_path = [] →
        r.file_path ∉ (delete_demystify_session cache fs session_id).2.1) := by
  constructor
  · cases hl : lookupSession cache session_id with
    | none =>
      simp [delete_demystify_session, get_session_data, hl]
    | some r =>
      simp [delete_demystify_session, get_session_data, hl, lookupSession_erase_none]
  · intro r hr
    constructor
    · simp [delete_demystify_session, get_session_data, hr, lookupSession_erase_none]
    · intro hfp
      by_cases hin : r.file_path ∈ fs
      · simp only [delete_demystify_session, get_session_data, hr]
        rw [if_pos ⟨hfp, hin⟩]
        exact not_mem_removePath fs r.file_path
      · simp only [delete_demystify_session, get_session_data, hr]
        rw [if_neg (fun hand => hin hand.2)]
        exact hin

/-- Claim C8 witness: deleting a concrete registered session. -/
theorem delete_then_get_witness :
    lookupSession (delete_demystify_session cacheW fsW "s".toList).1 "s".toList = none ∧
    (¬ recordW.file_path = [] →
      recordW.file_path ∉ (delete_demystify_session cacheW fsW "s".toList).2.1) :=
  (delete_then_get cacheW fsW "s".toList).2 recordW (by decide)

/-- Claim C10: the analysis report depends only on the first 10 chunks:
two uploads whose chunk lists agree on their first 10 entries produce
equal reports under the same capabilities, while the retrieval index of
each is built over all of its chunks. -/
theorem first_ten_chunks {V : Type} (env : Env V) (f1 f2 : UploadFile)
    (h1 : ¬ env.loader f1 = []) (h2 : ¬ env.loader f2 = [])
    (h10 : (split_documents (env.loader f1)).take 10
        = (split_documents (env.loader f2)).take 10) :
    ∃ r1 r2 : DemystifyResult V,
      process_document_for_demystification env f1 = .ok r1 ∧
      process_document_for_demystification env f2 = .ok r2 ∧
      r1.report = r2.report ∧
      r1.rag_chain.index.pairs.map Prod.fst = split_documents (env.loader f1) ∧
      r2.rag_chain.index.pairs.map Prod.fst = split_documents (env.loader f2) := by
  have he1 : (env.loader f1).isEmpty = false := by
    cases hl : env.loader f1 with
    | nil => exact absurd hl h1
    | cons d ds => rfl
  have he2 : (env.loader f2).isEmpty = false := by
    cases hl : env.loader f2 with
    | nil => exact absurd hl h2
    | cons d ds => rfl
  refine ⟨⟨run_demystifier_graph env.llm env.search
        ((split_documents (env.loader f1)).take 10),
      as_retriever (buildIndex env.embed (split_documents (env.loader f1)))⟩,
    ⟨run_demystifier_graph env.llm env.search
        ((split_documents (env.loader f2)).take 10),
      as_retriever (buildIndex env.embed (split_documents (env.loader f2)))⟩,
    ?_, ?_, ?_, ?_, ?_⟩
  · simp [process_document_for_demystification, he1]
  · simp [process_document_for_demystification, he2]
  · simp only [h10]
  · simp [as_retriever, buildIndex, List.map_map, Function.comp_def]
  · simp [as_retriever, buildIndex, List.map_map, Function.comp_def]

/-- Claim C10 witness: two distinct uploads whose loader output coincides. -/
theorem first_ten_chunks_witness :
    ∃ r1 r2 : DemystifyResult Unit,
      process_document_for_demystification envTenW fileAW = .ok r1 ∧
      process_document_for_demystification envTenW fileBW = .ok r2 ∧
      r1.report = r2.report ∧
      r1.rag_chain.index.pairs.map Prod.fst = split_documents (envTenW.loader fileAW) ∧
      r2.rag_chain.index.pairs.map Prod.fst = split_documents (envTenW.loader fileBW) :=
  first_ten_chunks envTenW fileAW fileBW (by decide) (by decide) rfl

end JanContract
